import Mathlib

/-!
Shallow embedding of the fluoride host transport driver
(src/gd/hal/hci_hal_host_rootcanal.cc) and of the LE address rotation
manager (src/gd/hci/le_address_manager.cc), together with theorems that
check the specification claims against the code.

Machine bytes are modelled as Nat values; socket reads become list
operations on an incoming byte stream; fatal assertions become error
results; the random source is an explicit environment of draws.
-/

namespace Fluoride

namespace Hal

/-- H4 packet tag for commands (kH4Command in the source). -/
def kH4Command : Nat := 0x01

/-- H4 packet tag for ACL data (kH4Acl in the source). -/
def kH4Acl : Nat := 0x02

/-- H4 packet tag for SCO data (kH4Sco in the source). -/
def kH4Sco : Nat := 0x03

/-- H4 packet tag for events (kH4Event in the source). -/
def kH4Event : Nat := 0x04

/-- Size of the leading H4 tag. -/
def kH4HeaderSize : Nat := 1

/-- Size of the fixed ACL header after the tag. -/
def kHciAclHeaderSize : Nat := 4

/-- Size of the fixed SCO header after the tag. -/
def kHciScoHeaderSize : Nat := 3

/-- Size of the fixed event header after the tag. -/
def kHciEvtHeaderSize : Nat := 2

/-- Size of the local frame buffer, the maximum total frame size. -/
def kBufSize : Nat := 1024

/-- Observable actions of the incoming packet handler, in program order:
socket reads into the local buffer, btsnoop capture, synchronous delivery
to the registered receiver, the SIGINT raised on a closed peer, and fatal
assertion failures. -/
inductive HalEvent where
  | recvBytes (bs : List Nat)
  | capture (pkt : List Nat)
  | deliverEvt (pkt : List Nat)
  | deliverAcl (pkt : List Nat)
  | deliverSco (pkt : List Nat)
  | sigint
  | fatal (msg : String)
  deriving Repr, DecidableEq

/-- Model of recv(sock_fd_, buf, n, 0) on a stream socket: it returns up to
n bytes, fewer when the stream holds fewer; the pair is the bytes obtained
and the rest of the stream. -/
def recvN (n : Nat) (s : List Nat) : List Nat × List Nat := (s.take n, s.drop n)

/-- BluetoothHciHalHostRootcanal::incoming_packet_received, translated over
an explicit incoming byte stream. The result is the list of observable
actions in program order and the unconsumed rest of the stream. A short
read where the source asserts an exact count becomes a fatal action; note
that in the ACL branch the source checks the maximum frame size only after
the payload recv, and the model keeps that order. -/
def incoming_packet_received (stream : List Nat) : List HalEvent × List Nat :=
  match stream with
  | [] => ([.sigint], [])
  | tag :: rest =>
    if tag = kH4Event then
      let hr := recvN kHciEvtHeaderSize rest
      let hdr := hr.1
      if hdr.length ≠ kHciEvtHeaderSize then
        ([.recvBytes [tag], .recvBytes hdr, .fatal "malformed HCI event header received"], hr.2)
      else
        let len := hdr.getD 1 0
        let pr := recvN len hr.2
        let payload := pr.1
        if payload.length ≠ len then
          ([.recvBytes [tag], .recvBytes hdr, .recvBytes payload,
            .fatal "malformed HCI event total parameter size received"], pr.2)
        else
          let pkt := hdr ++ payload
          ([.recvBytes [tag], .recvBytes hdr, .recvBytes payload, .capture pkt,
            .deliverEvt pkt], pr.2)
    else if tag = kH4Acl then
      let hr := recvN kHciAclHeaderSize rest
      let hdr := hr.1
      if hdr.length ≠ kHciAclHeaderSize then
        ([.recvBytes [tag], .recvBytes hdr, .fatal "malformed ACL header received"], hr.2)
      else
        let len := hdr.getD 3 0 * 256 + hdr.getD 2 0
        let pr := recvN len hr.2
        let payload := pr.1
        if payload.length ≠ len then
          ([.recvBytes [tag], .recvBytes hdr, .recvBytes payload,
            .fatal "malformed ACL length received"], pr.2)
        else if ¬ len ≤ kBufSize - kH4HeaderSize - kHciAclHeaderSize then
          ([.recvBytes [tag], .recvBytes hdr, .recvBytes payload,
            .fatal "packet too long"], pr.2)
        else
          let pkt := hdr ++ payload
          ([.recvBytes [tag], .recvBytes hdr, .recvBytes payload, .capture pkt,
            .deliverAcl pkt], pr.2)
    else if tag = kH4Sco then
      let hr := recvN kHciScoHeaderSize rest
      let hdr := hr.1
      if hdr.length ≠ kHciScoHeaderSize then
        ([.recvBytes [tag], .recvBytes hdr, .fatal "malformed SCO header received"], hr.2)
      else
        let len := hdr.getD 2 0
        let pr := recvN len hr.2
        let payload := pr.1
        if payload.length ≠ len then
          ([.recvBytes [tag], .recvBytes hdr, .recvBytes payload,
            .fatal "malformed SCO packet received: size mismatch"], pr.2)
        else
          let pkt := hdr ++ payload
          ([.recvBytes [tag], .recvBytes hdr, .recvBytes payload, .capture pkt,
            .deliverSco pkt], pr.2)
    else
      ([.recvBytes [tag]], rest)

end Hal

namespace Hci

/-- Mask of the two most significant bits of a BLE address byte
(BLE_ADDR_MASK in the source). -/
def BLE_ADDR_MASK : Nat := 0xc0

/-- A 6-byte Bluetooth device address; field bN is address[N] of the
source array (index 5 is the most significant byte). -/
structure Address where
  b0 : Nat
  b1 : Nat
  b2 : Nat
  b3 : Nat
  b4 : Nat
  b5 : Nat
  deriving Repr, DecidableEq

/-- Address type tag of AddressWithType. -/
inductive AddressType where
  | PUBLIC_DEVICE_ADDRESS
  | RANDOM_DEVICE_ADDRESS
  deriving Repr, DecidableEq

/-- Address together with its type. -/
structure AddressWithType where
  addr : Address
  ty : AddressType
  deriving Repr, DecidableEq

/-- Per-client lifecycle state (LeAddressManager::ClientState). -/
inductive ClientState where
  | RESUMED
  | WAITING_FOR_PAUSE
  | PAUSED
  | WAITING_FOR_RESUME
  deriving Repr, DecidableEq

/-- Privacy policy (LeAddressManager::AddressPolicy). -/
inductive AddressPolicy where
  | POLICY_NOT_SET
  | USE_PUBLIC_ADDRESS
  | USE_STATIC_ADDRESS
  | USE_NON_RESOLVABLE_ADDRESS
  | USE_RESOLVABLE_ADDRESS
  deriving Repr, DecidableEq

/-- Kind of a cached command (LeAddressManager::CommandType). -/
inductive CommandType where
  | ROTATE_RANDOM_ADDRESS
  | ADD_DEVICE_TO_CONNECT_LIST
  | REMOVE_DEVICE_FROM_CONNECT_LIST
  | ADD_DEVICE_TO_RESOLVING_LIST
  | REMOVE_DEVICE_FROM_RESOLVING_LIST
  | CLEAR_CONNECT_LIST
  | CLEAR_RESOLVING_LIST
  deriving Repr, DecidableEq

/-- A pre-encoded controller command packet; the wire encoding is outside
this layer, so the builders are represented by their constructor
arguments. Resolving keys are opaque Nat identifiers. -/
inductive CmdPacket where
  | leSetRandomAddress (a : Address)
  | leAddDeviceToConnectList (t : Nat) (a : Address)
  | leRemoveDeviceFromConnectList (t : Nat) (a : Address)
  | leAddDeviceToResolvingList (t : Nat) (a : Address) (peerIrk localIrk : Nat)
  | leRemoveDeviceFromResolvingList (t : Nat) (a : Address)
  | leClearConnectList
  | leClearResolvingList
  deriving Repr, DecidableEq

/-- A cached command: its type and its packet builder; the builder is
nullptr (none) exactly for ROTATE_RANDOM_ADDRESS commands. -/
structure Command where
  command_type : CommandType
  command_packet : Option CmdPacket
  deriving Repr, DecidableEq

/-- Observable outputs of the manager, in program order: client callbacks
OnPause and OnResume (clients identified by an opaque Nat handle), calls
of the injected enqueue_command_ function, alarm scheduling, and
non-fatal error logging. enqueueNull records a call of enqueue_command_
on a null builder (unreachable in practice). -/
inductive MOut where
  | onPause (c : Nat)
  | onResume (c : Nat)
  | enqueueCommand (p : CmdPacket)
  | enqueueNull
  | scheduleAlarm (ms : Nat)
  | logError (msg : String)
  deriving Repr, DecidableEq

/-- The random environment: the draws the os random source yields during
one operation, plus the aes_128 hash keyed with the stored rotation IRK,
taken as an opaque function from the three prand bytes to the three hash
bytes (the crypto toolbox is outside this repository). -/
structure Rng where
  prand : Nat × Nat × Nat
  rand6 : Nat × Nat × Nat × Nat × Nat × Nat
  fixByte : Nat
  loopDraws : List Nat
  intervalDraw : Nat
  aes128irk : Nat × Nat × Nat → Nat × Nat × Nat

/-- LeAddressManager::generate_rpa: three random bytes become prand, the
top two bits of prand[2] are cleared, a degenerate prand has prand[0]
replaced by a draw in [1, 0xfe], the resolvable marker bit 0x40 is set,
the address upper half is prand and the lower half is the aes hash of
prand. -/
def generate_rpa (rng : Rng) : Address :=
  let p0 := rng.prand.1
  let p1 := rng.prand.2.1
  let p2 := rng.prand.2.2 &&& 0x3f
  let p0 :=
    if (p0 = 0x00 ∧ p1 = 0x00 ∧ p2 = 0x00) ∨ (p0 = 0xff ∧ p1 = 0xff ∧ p2 = 0x3f) then
      rng.fixByte % 0xfe + 1
    else p0
  let p2 := p2 ||| 0x40
  let h := rng.aes128irk (p0, p1, p2)
  { b0 := h.1, b1 := h.2.1, b2 := h.2.2, b3 := p0, b4 := p1, b5 := p2 }

/-- The while loop at the end of LeAddressManager::generate_nrpa: while
the candidate equals the public address, byte 0 is replaced by a fresh
draw mapped into [1, 0xfe]. The draws available are a finite list; an
exhausted list with the candidate still equal to the public address
models divergence of the loop and yields none. -/
def nrpaAvoidPublic (pub : Address) (a : Address) : List Nat → Option Address
  | [] => if a = pub then none else some a
  | r :: rs =>
    if a = pub then nrpaAvoidPublic pub { a with b0 := r % 0xfe + 1 } rs
    else some a

/-- LeAddressManager::generate_nrpa: six random bytes, the top two bits of
byte 5 cleared, a degenerate pattern has byte 0 replaced by a draw in
[1, 0xfe], and then the loop that forbids the public address. -/
def generate_nrpa (pub : Address) (rng : Rng) : Option Address :=
  let r0 := rng.rand6.1
  let r1 := rng.rand6.2.1
  let r2 := rng.rand6.2.2.1
  let r3 := rng.rand6.2.2.2.1
  let r4 := rng.rand6.2.2.2.2.1
  let r5 := rng.rand6.2.2.2.2.2 &&& 0x3f
  let r0 :=
    if (r0 = 0x00 ∧ r1 = 0x00 ∧ r2 = 0x00 ∧ r3 = 0x00 ∧ r4 = 0x00 ∧ r5 = 0x00) ∨
       (r0 = 0xff ∧ r1 = 0xff ∧ r2 = 0xff ∧ r3 = 0xff ∧ r4 = 0xff ∧ r5 = 0x3f) then
      rng.fixByte % 0xfe + 1
    else r0
  nrpaAvoidPublic pub { b0 := r0, b1 := r1, b2 := r2, b3 := r3, b4 := r4, b5 := r5 }
    rng.loopDraws

/-- LeAddressManager::get_next_private_address_interval_ms: the random
draw is taken modulo the interval width and added to the minimum. When
the width is zero the integral modulo is division by zero, undefined
behaviour in the source, modelled as none. -/
def get_next_private_address_interval_ms (minimumTime maximumTime r : Nat) : Option Nat :=
  let range := maximumTime - minimumTime
  if range = 0 then none
  else some (minimumTime + r % range)

/-- The manager state: the fields of LeAddressManager that the modelled
operations read or write. registered_clients models the std::map keyed by
the callback pointer as an association list in iteration order with
unique keys; cached_commands models the std::queue with its front at the
head. -/
structure MState where
  address_policy : AddressPolicy
  registered_clients : List (Nat × ClientState)
  cached_commands : List Command
  le_address : AddressWithType
  public_address : Address
  rotation_irk : Nat
  minimum_rotation_time : Nat
  maximum_rotation_time : Nat
  deriving Repr, DecidableEq

/-- Lookup in the registered client map (std::map::find). -/
def lookupClient (cs : List (Nat × ClientState)) (c : Nat) : Option ClientState :=
  match cs with
  | [] => none
  | (k, v) :: rest => if k = c then some v else lookupClient rest c

/-- Write through a map iterator (find(cb)->second = st); keys absent from
the map are untouched. -/
def setClient (cs : List (Nat × ClientState)) (c : Nat) (st : ClientState) :
    List (Nat × ClientState) :=
  match cs with
  | [] => []
  | (k, v) :: rest => if k = c then (k, st) :: rest else (k, v) :: setClient rest c st

/-- std::map::insert: a no-op when the key is already present, otherwise
the new entry joins the map. -/
def insertClient (cs : List (Nat × ClientState)) (c : Nat) (st : ClientState) :
    List (Nat × ClientState) :=
  if (lookupClient cs c).isSome then cs else cs ++ [(c, st)]

/-- Result of a manager operation: the new state and outputs, or a fatal
assertion (ASSERT, ASSERT_LOG, LOG_ALWAYS_FATAL) with its message. -/
def MRes : Type := Except String (MState × List MOut)

instance : DecidableEq MRes := fun a b =>
  match a, b with
  | Except.ok x, Except.ok y =>
    if h : x = y then isTrue (by rw [h]) else isFalse (by intro hc; injection hc; contradiction)
  | Except.error x, Except.error y =>
    if h : x = y then isTrue (by rw [h]) else isFalse (by intro hc; injection hc; contradiction)
  | Except.ok _, Except.error _ => isFalse (by intro hc; injection hc)
  | Except.error _, Except.ok _ => isFalse (by intro hc; injection hc)

/-- True exactly on a fatal result. -/
def isFatal (r : MRes) : Bool :=
  match r with
  | Except.error _ => true
  | Except.ok _ => false

/-- LeAddressManager::pause_registered_clients. The range-for of the
source iterates over copies of the map pairs, so the write of
WAITING_FOR_PAUSE lands on the copy and the stored map is unchanged; the
observable effect is the OnPause callback on every client whose stored
state is neither PAUSED nor WAITING_FOR_PAUSE. -/
def pause_registered_clients (s : MState) : MState × List MOut :=
  (s, s.registered_clients.filterMap fun p =>
    if p.2 ≠ ClientState.PAUSED ∧ p.2 ≠ ClientState.WAITING_FOR_PAUSE then
      some (MOut.onPause p.1)
    else none)

/-- LeAddressManager::rotate_random_address: a no-op under a policy other
than resolvable or non-resolvable; otherwise the alarm is rescheduled
with the next interval, an address is generated by policy, the
set-random-address command is enqueued, and the visible address is
updated immediately. -/
def rotate_random_address (s : MState) (rng : Rng) : MRes :=
  if s.address_policy ≠ AddressPolicy.USE_RESOLVABLE_ADDRESS ∧
     s.address_policy ≠ AddressPolicy.USE_NON_RESOLVABLE_ADDRESS then
    Except.ok (s, [])
  else
    match get_next_private_address_interval_ms s.minimum_rotation_time
        s.maximum_rotation_time rng.intervalDraw with
    | none => Except.error "modulo by zero in rotation interval"
    | some d =>
      let genAddr : Option Address :=
        if s.address_policy = AddressPolicy.USE_RESOLVABLE_ADDRESS then
          some (generate_rpa rng)
        else generate_nrpa s.public_address rng
      match genAddr with
      | none => Except.error "generate_nrpa loop did not terminate"
      | some a =>
        Except.ok
          ({ s with le_address := ⟨a, AddressType.RANDOM_DEVICE_ADDRESS⟩ },
           [MOut.scheduleAlarm d, MOut.enqueueCommand (CmdPacket.leSetRandomAddress a)])

/-- LeAddressManager::handle_next_command: asserts the cached queue is
non-empty, pops the front, and either rotates (for ROTATE_RANDOM_ADDRESS)
or hands the stored packet to enqueue_command_. -/
def handle_next_command (s : MState) (rng : Rng) : MRes :=
  match s.cached_commands with
  | [] => Except.error "assertion failed: cached_commands_ is empty"
  | cmd :: rest =>
    let s1 := { s with cached_commands := rest }
    if cmd.command_type = CommandType.ROTATE_RANDOM_ADDRESS then
      rotate_random_address s1 rng
    else
      match cmd.command_packet with
      | some p => Except.ok (s1, [MOut.enqueueCommand p])
      | none => Except.ok (s1, [MOut.enqueueNull])

/-- LeAddressManager::resume_registered_clients: when the cached queue is
non-empty it defers to handle_next_command instead of resuming. Otherwise
every client receives OnResume; as in the pause path the range-for copies
the map pairs, so the stored states keep their old values. -/
def resume_registered_clients (s : MState) (rng : Rng) : MRes :=
  if s.cached_commands ≠ [] then handle_next_command s rng
  else Except.ok (s, s.registered_clients.map fun p => MOut.onResume p.1)

/-- LeAddressManager::ack_pause: asserts the client is registered, stores
PAUSED for it through the map iterator, and dispatches the next cached
command once every stored state is PAUSED. -/
def ack_pause (s : MState) (rng : Rng) (c : Nat) : MRes :=
  match lookupClient s.registered_clients c with
  | none => Except.error "assertion failed: client not registered"
  | some _ =>
    let s1 := { s with registered_clients := setClient s.registered_clients c ClientState.PAUSED }
    if s1.registered_clients.all fun p => p.2 = ClientState.PAUSED then
      handle_next_command s1 rng
    else Except.ok (s1, [])

/-- LeAddressManager::ack_resume: asserts the client is registered and
stores RESUMED for it. -/
def ack_resume (s : MState) (c : Nat) : MRes :=
  match lookupClient s.registered_clients c with
  | none => Except.error "assertion failed: client not registered"
  | some _ =>
    Except.ok
      ({ s with registered_clients := setClient s.registered_clients c ClientState.RESUMED }, [])

/-- LeAddressManager::prepare_to_rotate: caches a ROTATE_RANDOM_ADDRESS
command (null builder) and requests a pause of all clients. -/
def prepare_to_rotate (s : MState) : MState × List MOut :=
  pause_registered_clients
    { s with cached_commands := s.cached_commands ++ [⟨CommandType.ROTATE_RANDOM_ADDRESS, none⟩] }

/-- LeAddressManager::register_client: inserts the client in state RESUMED
and, when the policy is POLICY_NOT_SET, USE_RESOLVABLE_ADDRESS or
USE_NON_RESOLVABLE_ADDRESS, begins a rotate cycle. The source contains no
assertion on this path. -/
def register_client (s : MState) (c : Nat) : MState × List MOut :=
  let s1 := { s with registered_clients := insertClient s.registered_clients c ClientState.RESUMED }
  if s1.address_policy = AddressPolicy.POLICY_NOT_SET ∨
     s1.address_policy = AddressPolicy.USE_RESOLVABLE_ADDRESS ∨
     s1.address_policy = AddressPolicy.USE_NON_RESOLVABLE_ADDRESS then
    prepare_to_rotate s1
  else (s1, [])

/-- LeAddressManager::SetPrivacyPolicyForInitiatorAddress: asserts the
policy is not yet set, the new policy is a real one and no client is
registered; a static address must have its two most significant bits set
and a non-degenerate random part, and is submitted immediately; the
rotating policies store the key and the interval bounds and construct the
alarm. -/
def SetPrivacyPolicyForInitiatorAddress (s : MState) (policy : AddressPolicy)
    (fixed : AddressWithType) (irk : Nat) (minimumTime maximumTime : Nat) : MRes :=
  if s.address_policy ≠ AddressPolicy.POLICY_NOT_SET then
    Except.error "assertion failed: address_policy_ already set"
  else if policy = AddressPolicy.POLICY_NOT_SET then
    Except.error "assertion failed: address_policy is POLICY_NOT_SET"
  else if s.registered_clients ≠ [] then
    Except.error "Policy must be set before clients are registered."
  else
    let s1 := { s with address_policy := policy }
    match policy with
    | AddressPolicy.USE_PUBLIC_ADDRESS => Except.ok ({ s1 with le_address := fixed }, [])
    | AddressPolicy.USE_STATIC_ADDRESS =>
      let a := fixed.addr
      if ¬ a.b5 &&& BLE_ADDR_MASK = BLE_ADDR_MASK then
        Except.error "The two most significant bits shall be equal to 1"
      else if (a.b0 = 0x00 ∧ a.b1 = 0x00 ∧ a.b2 = 0x00 ∧ a.b3 = 0x00 ∧ a.b4 = 0x00 ∧
               a.b5 = BLE_ADDR_MASK) ∨
              (a.b0 = 0xff ∧ a.b1 = 0xff ∧ a.b2 = 0xff ∧ a.b3 = 0xff ∧ a.b4 = 0xff ∧
               a.b5 = 0xff) then
        Except.error "Bits of the random part of the address shall not be all 1 or all 0"
      else
        Except.ok ({ s1 with le_address := fixed },
          [MOut.enqueueCommand (CmdPacket.leSetRandomAddress a)])
    | AddressPolicy.USE_NON_RESOLVABLE_ADDRESS =>
      Except.ok
        ({ s1 with
            rotation_irk := irk
            minimum_rotation_time := minimumTime
            maximum_rotation_time := maximumTime }, [])
    | AddressPolicy.USE_RESOLVABLE_ADDRESS =>
      Except.ok
        ({ s1 with
            rotation_irk := irk
            minimum_rotation_time := minimumTime
            maximum_rotation_time := maximumTime }, [])
    | AddressPolicy.POLICY_NOT_SET => Except.error "invalid parameters"

/-- LeAddressManager::AddDeviceToConnectList: requests a pause of all
clients (the bound call is invoked synchronously before the push) and
caches the add command. -/
def AddDeviceToConnectList (s : MState) (t : Nat) (a : Address) : MState × List MOut :=
  let r := pause_registered_clients s
  ({ r.1 with cached_commands := r.1.cached_commands ++
      [⟨CommandType.ADD_DEVICE_TO_CONNECT_LIST, some (CmdPacket.leAddDeviceToConnectList t a)⟩] },
   r.2)

/-- LeAddressManager::AddDeviceToResolvingList: same shape as the connect
list variant. -/
def AddDeviceToResolvingList (s : MState) (t : Nat) (a : Address) (peerIrk localIrk : Nat) :
    MState × List MOut :=
  let r := pause_registered_clients s
  ({ r.1 with cached_commands := r.1.cached_commands ++
      [⟨CommandType.ADD_DEVICE_TO_RESOLVING_LIST,
        some (CmdPacket.leAddDeviceToResolvingList t a peerIrk localIrk)⟩] },
   r.2)

/-- LeAddressManager::RemoveDeviceFromConnectList. -/
def RemoveDeviceFromConnectList (s : MState) (t : Nat) (a : Address) : MState × List MOut :=
  let r := pause_registered_clients s
  ({ r.1 with cached_commands := r.1.cached_commands ++
      [⟨CommandType.REMOVE_DEVICE_FROM_CONNECT_LIST,
        some (CmdPacket.leRemoveDeviceFromConnectList t a)⟩] },
   r.2)

/-- LeAddressManager::RemoveDeviceFromResolvingList. -/
def RemoveDeviceFromResolvingList (s : MState) (t : Nat) (a : Address) : MState × List MOut :=
  let r := pause_registered_clients s
  ({ r.1 with cached_commands := r.1.cached_commands ++
      [⟨CommandType.REMOVE_DEVICE_FROM_RESOLVING_LIST,
        some (CmdPacket.leRemoveDeviceFromResolvingList t a)⟩] },
   r.2)

/-- LeAddressManager::ClearConnectList. -/
def ClearConnectList (s : MState) : MState × List MOut :=
  let r := pause_registered_clients s
  ({ r.1 with cached_commands := r.1.cached_commands ++
      [⟨CommandType.CLEAR_CONNECT_LIST, some CmdPacket.leClearConnectList⟩] },
   r.2)

/-- LeAddressManager::ClearResolvingList. -/
def ClearResolvingList (s : MState) : MState × List MOut :=
  let r := pause_registered_clients s
  ({ r.1 with cached_commands := r.1.cached_commands ++
      [⟨CommandType.CLEAR_RESOLVING_LIST, some CmdPacket.leClearResolvingList⟩] },
   r.2)

/-- HCI command opcode, reduced to the one value the manager inspects. -/
inductive OpCode where
  | LE_SET_RANDOM_ADDRESS
  | other (n : Nat)
  deriving Repr, DecidableEq

/-- A command complete event as the manager sees it: whether the generic
view is valid, its opcode, and the result of
LeSetRandomAddressCompleteView::Create on it — none when that narrowing
fails, some status otherwise (status 0 is ErrorCode::SUCCESS). -/
structure CommandCompleteView where
  is_valid : Bool
  command_op_code : OpCode
  set_random_address_status : Option Nat
  deriving Repr, DecidableEq

/-- LeAddressManager::OnCommandComplete: an invalid view is logged and
dropped (LOG_ERROR, not fatal, and the status is never inspected); a
set-random-address completion under the static policy is the initial
pre-registration submission and is ignored; otherwise an empty cached
queue leads to resume_registered_clients and a non-empty one to
handle_next_command. -/
def OnCommandComplete (s : MState) (rng : Rng) (v : CommandCompleteView) : MRes :=
  if v.is_valid = false then
    Except.ok (s, [MOut.logError "Received command complete with invalid packet"])
  else if v.command_op_code = OpCode.LE_SET_RANDOM_ADDRESS ∧
          s.address_policy = AddressPolicy.USE_STATIC_ADDRESS then
    Except.ok (s, [])
  else if s.cached_commands = [] then resume_registered_clients s rng
  else handle_next_command s rng

/-- LeAddressManager::on_le_set_random_address_complete: fatal when the
specialized view does not decode or carries a non-success status;
otherwise the same queue dispatch as OnCommandComplete. -/
def on_le_set_random_address_complete (s : MState) (rng : Rng) (v : CommandCompleteView) : MRes :=
  match v.set_random_address_status with
  | none => Except.error "Received on_le_set_random_address_complete with invalid packet"
  | some st =>
    if st ≠ 0 then
      Except.error "Received on_le_set_random_address_complete with error code"
    else if s.cached_commands = [] then resume_registered_clients s rng
    else handle_next_command s rng

/-- The all-zero address. -/
def addr0 : Address := ⟨0, 0, 0, 0, 0, 0⟩

/-- A nonzero peer address used in concrete runs. -/
def addrPeer : Address := ⟨9, 8, 7, 6, 5, 4⟩

/-- The all-zero address with public type. -/
def awt0 : AddressWithType := ⟨addr0, AddressType.PUBLIC_DEVICE_ADDRESS⟩

/-- A concrete random environment for the closed evaluations. -/
def rng0 : Rng :=
  { prand := (1, 2, 3)
    rand6 := (1, 2, 3, 4, 5, 6)
    fixByte := 0
    loopDraws := []
    intervalDraw := 0
    aes128irk := fun p => p }

/-- A freshly constructed manager: no policy, no clients, empty queue. -/
def baseState : MState :=
  { address_policy := AddressPolicy.POLICY_NOT_SET
    registered_clients := []
    cached_commands := []
    le_address := awt0
    public_address := addr0
    rotation_irk := 0
    minimum_rotation_time := 0
    maximum_rotation_time := 0 }

/-- Resolvable policy, one paused client, empty cached queue: the state at
which a completion should resume the client. -/
def stC1 : MState :=
  { baseState with
      address_policy := AddressPolicy.USE_RESOLVABLE_ADDRESS
      registered_clients := [(0, ClientState.PAUSED)] }

/-- A valid completion event for an opcode other than the static-address
set, with success status. -/
def vC1 : CommandCompleteView :=
  { is_valid := true, command_op_code := OpCode.other 0, set_random_address_status := some 0 }

/-- Public policy with one resumed client. -/
def stC3 : MState :=
  { baseState with
      address_policy := AddressPolicy.USE_PUBLIC_ADDRESS
      registered_clients := [(0, ClientState.RESUMED)] }

/-- stC3 after AddDeviceToConnectList cached its command. -/
def stC6b : MState :=
  { stC3 with
      cached_commands :=
        [⟨CommandType.ADD_DEVICE_TO_CONNECT_LIST,
          some (CmdPacket.leAddDeviceToConnectList 0 addrPeer)⟩] }

/-- stC6b after the client acknowledged the pause and the cached command
was dispatched: the client is recorded PAUSED and the queue is empty. -/
def stC6c : MState :=
  { stC3 with registered_clients := [(0, ClientState.PAUSED)] }

/-- A valid completion event with a non-success status (error code 5). -/
def vErr : CommandCompleteView :=
  { is_valid := true, command_op_code := OpCode.other 0, set_random_address_status := some 5 }

/-- An undecodable completion event. -/
def vInvalid : CommandCompleteView :=
  { is_valid := false, command_op_code := OpCode.other 0, set_random_address_status := none }

/-- Non-resolvable policy with equal minimum and maximum rotation times. -/
def stC9 : MState :=
  { baseState with
      address_policy := AddressPolicy.USE_NON_RESOLVABLE_ADDRESS
      minimum_rotation_time := 1000
      maximum_rotation_time := 1000 }

/-- The address generate_nrpa produces from rng0 and public address
addr0. -/
def addrW : Address := ⟨1, 2, 3, 4, 5, 6⟩

end Hci

namespace Hal

/-- An ACL frame whose declared payload length 1020 makes the total frame
1025 bytes, one over the 1024-byte maximum; the full payload is
available on the stream. -/
def aclOversizeStream : List Nat :=
  kH4Acl :: ([0, 0, 252, 3] ++ (List.replicate 1020 7 ++ []))

/-- Trace of the handler on a well-formed event frame. -/
theorem event_frame_trace (hdr payload rest : List Nat)
    (h1 : hdr.length = kHciEvtHeaderSize) (h2 : payload.length = hdr.getD 1 0) :
    incoming_packet_received (kH4Event :: (hdr ++ (payload ++ rest))) =
      ([.recvBytes [kH4Event], .recvBytes hdr, .recvBytes payload,
        .capture (hdr ++ payload), .deliverEvt (hdr ++ payload)], rest) := by
  simp [incoming_packet_received, recvN, List.take_left' h1, List.drop_left' h1,
    List.take_left' h2, List.drop_left' h2, h1, h2]

/-- Trace of the handler on a well-formed ACL frame within the maximum
frame size. -/
theorem acl_frame_trace (hdr payload rest : List Nat)
    (h1 : hdr.length = kHciAclHeaderSize)
    (h2 : payload.length = hdr.getD 3 0 * 256 + hdr.getD 2 0)
    (h3 : hdr.getD 3 0 * 256 + hdr.getD 2 0 ≤ kBufSize - kH4HeaderSize - kHciAclHeaderSize) :
    incoming_packet_received (kH4Acl :: (hdr ++ (payload ++ rest))) =
      ([.recvBytes [kH4Acl], .recvBytes hdr, .recvBytes payload,
        .capture (hdr ++ payload), .deliverAcl (hdr ++ payload)], rest) := by
  have h3n : hdr[3]?.getD 0 * 256 + hdr[2]?.getD 0 ≤
      kBufSize - kH4HeaderSize - kHciAclHeaderSize := by simpa using h3
  simp [incoming_packet_received, recvN, List.take_left' h1, List.drop_left' h1,
    List.take_left' h2, List.drop_left' h2, h1, h2, h3n, kH4Acl, kH4Event]

/-- Trace of the handler on a well-formed SCO frame. -/
theorem sco_frame_trace (hdr payload rest : List Nat)
    (h1 : hdr.length = kHciScoHeaderSize) (h2 : payload.length = hdr.getD 2 0) :
    incoming_packet_received (kH4Sco :: (hdr ++ (payload ++ rest))) =
      ([.recvBytes [kH4Sco], .recvBytes hdr, .recvBytes payload,
        .capture (hdr ++ payload), .deliverSco (hdr ++ payload)], rest) := by
  simp [incoming_packet_received, recvN, List.take_left' h1, List.drop_left' h1,
    List.take_left' h2, List.drop_left' h2, h1, h2, kH4Sco, kH4Event, kH4Acl]

/-- Trace of the handler on an ACL frame whose declared length exceeds the
maximum frame size but whose payload is fully available: the payload is
read from the socket before the size check fails. -/
theorem acl_oversize_trace (hdr payload rest : List Nat)
    (h1 : hdr.length = kHciAclHeaderSize)
    (h2 : payload.length = hdr.getD 3 0 * 256 + hdr.getD 2 0)
    (h3 : kBufSize - kH4HeaderSize - kHciAclHeaderSize < hdr.getD 3 0 * 256 + hdr.getD 2 0) :
    incoming_packet_received (kH4Acl :: (hdr ++ (payload ++ rest))) =
      ([.recvBytes [kH4Acl], .recvBytes hdr, .recvBytes payload, .fatal "packet too long"],
        rest) := by
  have h3n : kBufSize - kH4HeaderSize - kHciAclHeaderSize <
      hdr[3]?.getD 0 * 256 + hdr[2]?.getD 0 := by simpa using h3
  simp [incoming_packet_received, recvN, List.take_left' h1, List.drop_left' h1,
    List.take_left' h2, List.drop_left' h2, h1, h2, Nat.not_le.mpr h3n, kH4Acl, kH4Event]

/-- C2: for every well-formed incoming frame with tag Event (0x04), ACL
(0x02) or SCO (0x03) whose declared payload length keeps the total frame
within the maximum frame size, the driver delivers to the receiver
exactly the header plus the declared payload bytes, byte-identical to the
stream the peer wrote, with the length taken from the 8-bit field at byte
2 for Event, the little-endian 16-bit field at bytes 3 and 4 for ACL, and
the 8-bit field at byte 3 for SCO. -/
theorem C2_well_formed_frames_delivered :
    (∀ hdr payload rest : List Nat, hdr.length = kHciEvtHeaderSize →
      payload.length = hdr.getD 1 0 →
      kH4HeaderSize + kHciEvtHeaderSize + hdr.getD 1 0 ≤ kBufSize →
      incoming_packet_received (kH4Event :: (hdr ++ (payload ++ rest))) =
        ([.recvBytes [kH4Event], .recvBytes hdr, .recvBytes payload,
          .capture (hdr ++ payload), .deliverEvt (hdr ++ payload)], rest)) ∧
    (∀ hdr payload rest : List Nat, hdr.length = kHciAclHeaderSize →
      payload.length = hdr.getD 3 0 * 256 + hdr.getD 2 0 →
      kH4HeaderSize + kHciAclHeaderSize + (hdr.getD 3 0 * 256 + hdr.getD 2 0) ≤ kBufSize →
      incoming_packet_received (kH4Acl :: (hdr ++ (payload ++ rest))) =
        ([.recvBytes [kH4Acl], .recvBytes hdr, .recvBytes payload,
          .capture (hdr ++ payload), .deliverAcl (hdr ++ payload)], rest)) ∧
    (∀ hdr payload rest : List Nat, hdr.length = kHciScoHeaderSize →
      payload.length = hdr.getD 2 0 →
      kH4HeaderSize + kHciScoHeaderSize + hdr.getD 2 0 ≤ kBufSize →
      incoming_packet_received (kH4Sco :: (hdr ++ (payload ++ rest))) =
        ([.recvBytes [kH4Sco], .recvBytes hdr, .recvBytes payload,
          .capture (hdr ++ payload), .deliverSco (hdr ++ payload)], rest)) := by
  refine ⟨fun hdr payload rest h1 h2 _ => event_frame_trace hdr payload rest h1 h2,
    fun hdr payload rest h1 h2 h3 => acl_frame_trace hdr payload rest h1 h2 ?_,
    fun hdr payload rest h1 h2 _ => sco_frame_trace hdr payload rest h1 h2⟩
  revert h3
  simp only [kBufSize, kH4HeaderSize, kHciAclHeaderSize]
  omega

/-- Witness for C2 at one concrete frame of each tag. -/
theorem C2_well_formed_frames_delivered_witness :
    incoming_packet_received [0x04, 14, 1, 7, 9] =
      ([.recvBytes [0x04], .recvBytes [14, 1], .recvBytes [7], .capture [14, 1, 7],
        .deliverEvt [14, 1, 7]], [9]) ∧
    incoming_packet_received [0x02, 0, 0, 1, 0, 7, 9] =
      ([.recvBytes [0x02], .recvBytes [0, 0, 1, 0], .recvBytes [7], .capture [0, 0, 1, 0, 7],
        .deliverAcl [0, 0, 1, 0, 7]], [9]) ∧
    incoming_packet_received [0x03, 0, 0, 1, 7, 9] =
      ([.recvBytes [0x03], .recvBytes [0, 0, 1], .recvBytes [7], .capture [0, 0, 1, 7],
        .deliverSco [0, 0, 1, 7]], [9]) :=
  ⟨C2_well_formed_frames_delivered.1 [14, 1] [7] [9] (by decide) (by decide) (by decide),
   C2_well_formed_frames_delivered.2.1 [0, 0, 1, 0] [7] [9] (by decide) (by decide) (by decide),
   C2_well_formed_frames_delivered.2.2 [0, 0, 1] [7] [9] (by decide) (by decide) (by decide)⟩

/-- C4 counterexample: an ACL frame with declared payload length 1020
(total frame 1025 bytes, over the 1024-byte maximum). The handler reads
the whole 1020-byte payload from the socket into the frame buffer and
only then fails the size assertion, so the fatal stop does not happen
before the payload is read. No packet is delivered. -/
theorem C4_cex_payload_read_before_size_check :
    incoming_packet_received aclOversizeStream =
      ([.recvBytes [kH4Acl], .recvBytes [0, 0, 252, 3], .recvBytes (List.replicate 1020 7),
        .fatal "packet too long"], []) :=
  acl_oversize_trace [0, 0, 252, 3] (List.replicate 1020 7) [] (by decide)
    (by rw [List.length_replicate]; decide) (by decide)

/-- C4 as amended: for every incoming ACL frame whose declared 16-bit
payload length makes the total frame exceed the 1024-byte maximum and
whose payload is available on the stream, the driver reads the declared
payload into the frame buffer and then fails fatally as a protocol
violation, before any packet is delivered to the receiver. -/
theorem C4_acl_oversize_fatal_after_payload_read (hdr payload rest : List Nat)
    (h1 : hdr.length = kHciAclHeaderSize)
    (h2 : payload.length = hdr.getD 3 0 * 256 + hdr.getD 2 0)
    (h3 : kBufSize < kH4HeaderSize + kHciAclHeaderSize + (hdr.getD 3 0 * 256 + hdr.getD 2 0)) :
    incoming_packet_received (kH4Acl :: (hdr ++ (payload ++ rest))) =
      ([.recvBytes [kH4Acl], .recvBytes hdr, .recvBytes payload, .fatal "packet too long"],
        rest) := by
  refine acl_oversize_trace hdr payload rest h1 h2 ?_
  revert h3
  simp only [kBufSize, kH4HeaderSize, kHciAclHeaderSize]
  omega

/-- Witness for the amended C4 at a frame with declared length 1021. -/
theorem C4_acl_oversize_fatal_after_payload_read_witness :
    incoming_packet_received (kH4Acl :: ([0, 0, 253, 3] ++ (List.replicate 1021 8 ++ [9]))) =
      ([.recvBytes [kH4Acl], .recvBytes [0, 0, 253, 3], .recvBytes (List.replicate 1021 8),
        .fatal "packet too long"], [9]) :=
  C4_acl_oversize_fatal_after_payload_read [0, 0, 253, 3] (List.replicate 1021 8) [9]
    (by decide) (by rw [List.length_replicate]; decide) (by decide)

/-- C10: a first byte with any tag other than Event (0x04), ACL (0x02) or
SCO (0x03) is consumed and the handler returns: no further byte is read,
nothing is delivered, and no error or fatal action is raised. -/
theorem C10_unknown_tag_consumed_and_ignored (tag : Nat) (rest : List Nat)
    (hAcl : tag ≠ kH4Acl) (hSco : tag ≠ kH4Sco) (hEvt : tag ≠ kH4Event) :
    incoming_packet_received (tag :: rest) = ([.recvBytes [tag]], rest) := by
  simp [incoming_packet_received, hAcl, hSco, hEvt]

/-- Witness for C10 at the Command tag 0x01. -/
theorem C10_unknown_tag_consumed_and_ignored_witness :
    incoming_packet_received [0x01, 5, 6, 7] = ([.recvBytes [0x01]], [5, 6, 7]) :=
  C10_unknown_tag_consumed_and_ignored 0x01 [5, 6, 7] (by decide) (by decide) (by decide)

end Hal

namespace Hci

/-- C1 (code bug, failing input): resolvable policy, one registered
client recorded PAUSED, empty cached queue, and a valid completion for a
non-static opcode. The handler notifies OnResume exactly once and issues
nothing, but the recorded client state is unchanged — still PAUSED, not
WAITING_FOR_RESUME — because the range-for in
resume_registered_clients iterates over copies of the map pairs and the
state write lands on the copy. -/
theorem C1_completion_resumes_without_recording_state :
    OnCommandComplete stC1 rng0 vC1 = Except.ok (stC1, [MOut.onResume 0]) ∧
    stC1.registered_clients = [(0, ClientState.PAUSED)] := by
  constructor
  · rfl
  · rfl

/-- C3 (code bug, failing input): one registered client recorded RESUMED.
pause_registered_clients notifies OnPause but leaves the recorded state
RESUMED instead of WAITING_FOR_PAUSE: the range-for iterates over copies
of the map pairs, so the WAITING_FOR_PAUSE write lands on the copy and
the stored states never take the two waiting values of the cycle. -/
theorem C3_pause_notifies_without_recording_state :
    pause_registered_clients stC3 = (stC3, [MOut.onPause 0]) ∧
    stC3.registered_clients = [(0, ClientState.RESUMED)] := by
  constructor
  · rfl
  · rfl

/-- C6 (code bug, failing input): one client; AddDeviceToConnectList
caches a command and requests a pause; the first ackPause records PAUSED
and dispatches the cached command, emptying the queue; a second ackPause
without an intervening pause request again finds every client PAUSED and
calls handle_next_command, whose assertion on a non-empty queue fails —
a fatal abort instead of the idempotent no-op the claim states. -/
theorem C6_second_ack_pause_hits_empty_queue_assert :
    AddDeviceToConnectList stC3 0 addrPeer = (stC6b, [MOut.onPause 0]) ∧
    ack_pause stC6b rng0 0 =
      Except.ok (stC6c, [MOut.enqueueCommand (CmdPacket.leAddDeviceToConnectList 0 addrPeer)]) ∧
    ack_pause stC6c rng0 0 = Except.error "assertion failed: cached_commands_ is empty" := by
  refine ⟨rfl, ?_, ?_⟩
  · rfl
  · rfl

/-- C5 counterexample: a completion event that decodes as valid but
reports error status 5, handed to OnCommandComplete at a state with one
paused client and an empty queue. The handler never inspects the status:
it is not fatal, and it resumes the client. -/
theorem C5_cex_error_status_still_resumes :
    OnCommandComplete stC1 rng0 vErr = Except.ok (stC1, [MOut.onResume 0]) ∧
    isFatal (OnCommandComplete stC1 rng0 vErr) = false := by
  constructor
  · rfl
  · rfl

/-- C5 as amended: OnCommandComplete treats an event that does not decode
as a logged no-op — not fatal, state unchanged, nothing resumed or
issued — and never inspects the completion status; only
on_le_set_random_address_complete is fatal on a completion that fails to
decode or reports a non-success status, and a fatal stop issues and
resumes nothing. -/
theorem C5_invalid_or_failing_completion_handling :
    (∀ (s : MState) (rng : Rng) (v : CommandCompleteView), v.is_valid = false →
      OnCommandComplete s rng v =
        Except.ok (s, [MOut.logError "Received command complete with invalid packet"])) ∧
    (∀ (s : MState) (rng : Rng) (v : CommandCompleteView),
      v.set_random_address_status = none →
      on_le_set_random_address_complete s rng v =
        Except.error "Received on_le_set_random_address_complete with invalid packet") ∧
    (∀ (s : MState) (rng : Rng) (v : CommandCompleteView) (st : Nat),
      v.set_random_address_status = some st → st ≠ 0 →
      on_le_set_random_address_complete s rng v =
        Except.error "Received on_le_set_random_address_complete with error code") := by
  refine ⟨?_, ?_, ?_⟩
  · intro s rng v h
    simp [OnCommandComplete, h]
  · intro s rng v h
    simp [on_le_set_random_address_complete, h]
  · intro s rng v st h hst
    simp [on_le_set_random_address_complete, h, hst]

/-- Witness for the amended C5 at concrete events. -/
theorem C5_invalid_or_failing_completion_handling_witness :
    OnCommandComplete baseState rng0 vInvalid =
      Except.ok (baseState, [MOut.logError "Received command complete with invalid packet"]) ∧
    on_le_set_random_address_complete baseState rng0 vInvalid =
      Except.error "Received on_le_set_random_address_complete with invalid packet" ∧
    on_le_set_random_address_complete baseState rng0 vErr =
      Except.error "Received on_le_set_random_address_complete with error code" :=
  ⟨C5_invalid_or_failing_completion_handling.1 baseState rng0 vInvalid rfl,
   C5_invalid_or_failing_completion_handling.2.1 baseState rng0 vInvalid rfl,
   C5_invalid_or_failing_completion_handling.2.2 baseState rng0 vErr 5 rfl (by decide)⟩

/-- C7 counterexample: register_client called on a fresh manager with no
policy set does not fail — it admits the client in state RESUMED, caches
a rotate command and sends the client OnPause. -/
theorem C7_cex_register_before_policy_accepts_client :
    register_client baseState 0 =
      ({ baseState with
          registered_clients := [(0, ClientState.RESUMED)]
          cached_commands := [⟨CommandType.ROTATE_RANDOM_ADDRESS, none⟩] },
        [MOut.onPause 0]) := by
  rfl

/-- Lookup after appending a fresh entry finds that entry. -/
theorem lookupClient_append_fresh (cs : List (Nat × ClientState)) (c : Nat) (st : ClientState)
    (h : lookupClient cs c = none) : lookupClient (cs ++ [(c, st)]) c = some st := by
  induction cs with
  | nil => simp [lookupClient]
  | cons p rest ih =>
    obtain ⟨k, v⟩ := p
    simp only [lookupClient] at h
    by_cases hk : k = c
    · rw [if_pos hk] at h
      exact absurd h (by simp)
    · rw [if_neg hk] at h
      show lookupClient ((k, v) :: (rest ++ [(c, st)])) c = some st
      simp only [lookupClient, if_neg hk]
      exact ih h

/-- C7 as amended: registering a fresh client before any policy is set is
not fatal: the client is admitted in state RESUMED and a rotate cycle
begins (a ROTATE_RANDOM_ADDRESS command joins the cached queue); the
configuration error is instead detected fatally when the privacy policy
is later set while clients are registered. -/
theorem C7_register_accepted_then_policy_set_fatal :
    (∀ (s : MState) (c : Nat), s.address_policy = AddressPolicy.POLICY_NOT_SET →
      lookupClient s.registered_clients c = none →
      lookupClient (register_client s c).1.registered_clients c = some ClientState.RESUMED ∧
      (register_client s c).1.cached_commands =
        s.cached_commands ++ [⟨CommandType.ROTATE_RANDOM_ADDRESS, none⟩]) ∧
    (∀ (s : MState) (policy : AddressPolicy) (fixed : AddressWithType)
      (irk minimumTime maximumTime : Nat), s.registered_clients ≠ [] →
      isFatal (SetPrivacyPolicyForInitiatorAddress s policy fixed irk minimumTime
        maximumTime) = true) := by
  constructor
  · intro s c h1 h2
    have hfresh : lookupClient (insertClient s.registered_clients c ClientState.RESUMED) c =
        some ClientState.RESUMED := by
      unfold insertClient
      rw [h2]
      simp only [Option.isSome_none, Bool.false_eq_true, if_false]
      exact lookupClient_append_fresh _ _ _ h2
    constructor
    · simpa [register_client, prepare_to_rotate, pause_registered_clients, h1] using hfresh
    · simp [register_client, prepare_to_rotate, pause_registered_clients, h1]
  · intro s policy fixed irk minimumTime maximumTime h
    unfold SetPrivacyPolicyForInitiatorAddress
    by_cases h1 : s.address_policy ≠ AddressPolicy.POLICY_NOT_SET
    · simp [h1, isFatal]
    · by_cases h2 : policy = AddressPolicy.POLICY_NOT_SET
      · simp [h1, h2, isFatal]
      · simp [h1, h2, h, isFatal]

/-- Witness for the amended C7: registering on the fresh state, and a
policy set on a state that already has a client. -/
theorem C7_register_accepted_then_policy_set_fatal_witness :
    (lookupClient (register_client baseState 0).1.registered_clients 0 =
        some ClientState.RESUMED ∧
      (register_client baseState 0).1.cached_commands =
        baseState.cached_commands ++ [⟨CommandType.ROTATE_RANDOM_ADDRESS, none⟩]) ∧
    isFatal (SetPrivacyPolicyForInitiatorAddress stC3 AddressPolicy.USE_PUBLIC_ADDRESS awt0
      0 0 0) = true :=
  ⟨C7_register_accepted_then_policy_set_fatal.1 baseState 0 rfl rfl,
   C7_register_accepted_then_policy_set_fatal.2 stC3
     AddressPolicy.USE_PUBLIC_ADDRESS awt0 0 0 0 (by decide)⟩

/-- Clearing the top two bits leaves a value below 64. -/
theorem and63_lt (x : Nat) : x &&& 63 < 64 :=
  Nat.lt_succ_of_le Nat.and_le_right

/-- Setting bit 6 and masking it away again restores a value below 64. -/
theorem or64_and63 : ∀ x < 64, (x ||| 64) &&& 63 = x := by decide

/-- Masking with 0x3f twice equals masking once. -/
theorem and63_and63 (x : Nat) : x &&& 63 &&& 63 = x &&& 63 := by
  rw [Nat.and_assoc]
  norm_num

/-- The degenerate-pattern fix maps any draw into [1, 0xfe]. -/
theorem fixByte_range (r : Nat) : 1 ≤ r % 0xfe + 1 ∧ r % 0xfe + 1 ≤ 0xfe := by
  have := Nat.mod_lt r (show 0 < 0xfe by norm_num)
  omega

/-- Whenever the avoid-public loop returns an address, that address is
not the public address, and it is either the candidate it started from
or the candidate with byte 0 replaced by a value in [1, 0xfe]. -/
theorem nrpaAvoidPublic_result (pub : Address) :
    ∀ (rs : List Nat) (a res : Address), nrpaAvoidPublic pub a rs = some res →
      res ≠ pub ∧ (res = a ∨ (1 ≤ res.b0 ∧ res.b0 ≤ 0xfe ∧ res.b1 = a.b1 ∧ res.b2 = a.b2 ∧
        res.b3 = a.b3 ∧ res.b4 = a.b4 ∧ res.b5 = a.b5)) := by
  intro rs
  induction rs with
  | nil =>
    intro a res h
    unfold nrpaAvoidPublic at h
    by_cases hap : a = pub
    · rw [if_pos hap] at h
      exact absurd h (by simp)
    · rw [if_neg hap] at h
      injection h with h
      subst h
      exact ⟨hap, Or.inl rfl⟩
  | cons r rs ih =>
    intro a res h
    unfold nrpaAvoidPublic at h
    by_cases hap : a = pub
    · rw [if_pos hap] at h
      obtain ⟨hne, hcase⟩ := ih _ _ h
      refine ⟨hne, Or.inr ?_⟩
      rcases hcase with heq | ⟨hlo, hhi, e1, e2, e3, e4, e5⟩
      · subst heq
        exact ⟨(fixByte_range r).1, (fixByte_range r).2, rfl, rfl, rfl, rfl, rfl⟩
      · exact ⟨hlo, hhi, e1, e2, e3, e4, e5⟩
    · rw [if_neg hap] at h
      injection h with h
      subst h
      exact ⟨hap, Or.inl rfl⟩

/-- C8: the resolvable generator always returns an address whose random
part — prand in bytes 3 to 5, read under the 0x3f mask of the fixed type
bits — is neither all zeros nor all ones, whatever the random source
yields; and whenever the non-resolvable generator returns an address, its
random bits are likewise non-degenerate under the mask and the address
differs from the configured public address. -/
theorem C8_generated_addresses_non_degenerate :
    (∀ rng : Rng,
      ¬((generate_rpa rng).b3 = 0x00 ∧ (generate_rpa rng).b4 = 0x00 ∧
        (generate_rpa rng).b5 &&& 0x3f = 0x00) ∧
      ¬((generate_rpa rng).b3 = 0xff ∧ (generate_rpa rng).b4 = 0xff ∧
        (generate_rpa rng).b5 &&& 0x3f = 0x3f)) ∧
    (∀ (pub : Address) (rng : Rng) (a : Address), generate_nrpa pub rng = some a →
      (¬(a.b0 = 0x00 ∧ a.b1 = 0x00 ∧ a.b2 = 0x00 ∧ a.b3 = 0x00 ∧ a.b4 = 0x00 ∧
         a.b5 &&& 0x3f = 0x00) ∧
       ¬(a.b0 = 0xff ∧ a.b1 = 0xff ∧ a.b2 = 0xff ∧ a.b3 = 0xff ∧ a.b4 = 0xff ∧
         a.b5 &&& 0x3f = 0x3f)) ∧
      a ≠ pub) := by
  constructor
  · intro rng
    simp only [generate_rpa]
    have hmask : ((rng.prand.2.2 &&& 0x3f) ||| 0x40) &&& 0x3f = rng.prand.2.2 &&& 0x3f :=
      or64_and63 _ (and63_lt _)
    rw [hmask]
    by_cases hdeg : (rng.prand.1 = 0x00 ∧ rng.prand.2.1 = 0x00 ∧
        rng.prand.2.2 &&& 0x3f = 0x00) ∨
        (rng.prand.1 = 0xff ∧ rng.prand.2.1 = 0xff ∧ rng.prand.2.2 &&& 0x3f = 0x3f)
    · rw [if_pos hdeg]
      have hr := fixByte_range rng.fixByte
      constructor
      · rintro ⟨ha, -, -⟩
        omega
      · rintro ⟨ha, -, -⟩
        omega
    · rw [if_neg hdeg]
      exact ⟨fun hc => hdeg (Or.inl hc), fun hc => hdeg (Or.inr hc)⟩
  · intro pub rng a h
    simp only [generate_nrpa] at h
    by_cases hdeg : (rng.rand6.1 = 0x00 ∧ rng.rand6.2.1 = 0x00 ∧ rng.rand6.2.2.1 = 0x00 ∧
        rng.rand6.2.2.2.1 = 0x00 ∧ rng.rand6.2.2.2.2.1 = 0x00 ∧
        rng.rand6.2.2.2.2.2 &&& 0x3f = 0x00) ∨
        (rng.rand6.1 = 0xff ∧ rng.rand6.2.1 = 0xff ∧ rng.rand6.2.2.1 = 0xff ∧
        rng.rand6.2.2.2.1 = 0xff ∧ rng.rand6.2.2.2.2.1 = 0xff ∧
        rng.rand6.2.2.2.2.2 &&& 0x3f = 0x3f)
    · rw [if_pos hdeg] at h
      obtain ⟨hne, hcase⟩ := nrpaAvoidPublic_result pub rng.loopDraws _ a h
      refine ⟨?_, hne⟩
      have hr := fixByte_range rng.fixByte
      rcases hcase with heq | ⟨hlo, hhi, -, -, -, -, -⟩
      · subst heq
        dsimp only
        constructor
        · rintro ⟨ha, -⟩
          omega
        · rintro ⟨ha, -⟩
          omega
      · constructor
        · rintro ⟨ha, -⟩
          omega
        · rintro ⟨ha, -⟩
          omega
    · rw [if_neg hdeg] at h
      obtain ⟨hne, hcase⟩ := nrpaAvoidPublic_result pub rng.loopDraws _ a h
      refine ⟨?_, hne⟩
      rcases hcase with heq | ⟨hlo, hhi, -, -, -, -, -⟩
      · subst heq
        dsimp only
        rw [and63_and63]
        exact ⟨fun hc => hdeg (Or.inl hc), fun hc => hdeg (Or.inr hc)⟩
      · constructor
        · rintro ⟨ha, -⟩
          omega
        · rintro ⟨ha, -⟩
          omega

/-- Witness for C8: the non-resolvable generator run on rng0 against the
all-zero public address. -/
theorem C8_generated_addresses_non_degenerate_witness :
    generate_nrpa addr0 rng0 = some addrW ∧
      ((¬(addrW.b0 = 0x00 ∧ addrW.b1 = 0x00 ∧ addrW.b2 = 0x00 ∧ addrW.b3 = 0x00 ∧
          addrW.b4 = 0x00 ∧ addrW.b5 &&& 0x3f = 0x00) ∧
        ¬(addrW.b0 = 0xff ∧ addrW.b1 = 0xff ∧ addrW.b2 = 0xff ∧ addrW.b3 = 0xff ∧
          addrW.b4 = 0xff ∧ addrW.b5 &&& 0x3f = 0x3f)) ∧
       addrW ≠ addr0) :=
  ⟨by decide, C8_generated_addresses_non_degenerate.2 addr0 rng0 addrW (by decide)⟩

/-- C9 counterexample: with minimum and maximum rotation times both 1000,
the interval computation takes a modulo by zero — undefined behaviour in
the source — so the rotation routine has no defined delay in [1000, 1000]
to rearm with; the model makes this a fatal result. -/
theorem C9_cex_equal_bounds_modulo_by_zero :
    get_next_private_address_interval_ms 1000 1000 0 = none ∧
    rotate_random_address stC9 rng0 = Except.error "modulo by zero in rotation interval" := by
  constructor
  · rfl
  · rfl

/-- C9 as amended: for minimum strictly below maximum, the rearm delay is
minimum plus the draw modulo the width, which lies in the half-open
interval from minimum (inclusive) to maximum (exclusive) — hence within
the claimed closed interval, though maximum itself is never drawn. -/
theorem C9_rearm_delay_in_half_open_interval (minimumTime maximumTime r : Nat)
    (h : minimumTime < maximumTime) :
    get_next_private_address_interval_ms minimumTime maximumTime r =
      some (minimumTime + r % (maximumTime - minimumTime)) ∧
    minimumTime ≤ minimumTime + r % (maximumTime - minimumTime) ∧
    minimumTime + r % (maximumTime - minimumTime) < maximumTime := by
  have hw : maximumTime - minimumTime ≠ 0 := by omega
  have hm := Nat.mod_lt r (Nat.pos_of_ne_zero hw)
  refine ⟨?_, Nat.le_add_right _ _, by omega⟩
  simp [get_next_private_address_interval_ms, hw]

/-- Witness for the amended C9 at bounds 1000 and 2000 with draw 1234. -/
theorem C9_rearm_delay_in_half_open_interval_witness :
    get_next_private_address_interval_ms 1000 2000 1234 =
      some (1000 + 1234 % (2000 - 1000)) ∧
    1000 ≤ 1000 + 1234 % (2000 - 1000) ∧ 1000 + 1234 % (2000 - 1000) < 2000 :=
  C9_rearm_delay_in_half_open_interval 1000 2000 1234 (by decide)

end Hci

end Fluoride
